import Mathlib

/-!
Verification of the catalog-resolution and product-selection logic of
`tools/FetchMacOS/fetch-macos.py` (macOS-Simple-KVM).

The script parses an Apple SoftwareUpdate catalog (a property list) and
selects/downloads installer packages.  We shallowly embed the plist data
model and every function of the script that the specification's claims
touch: `SoftwareService.catalogs` / `__init__` (catalog-URL resolution),
`SoftwareService.getosinstall`, `MacOSProduct.__init__`,
`MacOSProduct.fetchpackages`, and the `fetchmacos` orchestrator.

Python exceptions are modelled as `Except String` / error strings naming
the Python exception class (`"KeyError"`, `"TypeError"`,
`"AttributeError"`, `"IndexError"`).  Network and filesystem effects are
modelled as an event trace: the catalog HTTP request and each invocation
of the external `Filesystem.download_file` collaborator (recorded with
the arguments the script passes it).
-/

/-- A parsed property-list value, as produced by `plistlib.loads`.
Mappings keep document order (Python dicts preserve insertion order), so
they are association lists.  `int` stands in for every scalar other than
a string (integer, real, boolean, data, date): the script's logic treats
all of those identically (they are not dicts, not strings and not
iterable by `in`), so one constructor suffices. -/
inductive PValue where
  | str : String → PValue
  | int : Int → PValue
  | arr : List PValue → PValue
  | dict : List (String × PValue) → PValue

/-- The marker string `com.apple.mpkg.OSInstall` tested by `getosinstall`. -/
def osInstallMarker : String := "com.apple.mpkg.OSInstall"

/-- Python `d.get(k, {})` on a value `d`: returns the entry (or `{}` when
the key is absent) when `d` is a dict, raises `AttributeError` otherwise. -/
def pyGetDefault (v : PValue) (k : String) : Except String PValue :=
  match v with
  | .dict kvs => .ok ((kvs.lookup k).getD (.dict []))
  | _ => .error "AttributeError"

/-- Does `needle` occur at the head of `hay`?  (Helper for Python's
substring test.) -/
def charsHasPre : List Char → List Char → Bool
  | [], _ => true
  | _ :: _, [] => false
  | a :: as, b :: bs => a == b && charsHasPre as bs

/-- Does `needle` occur contiguously anywhere in `hay`? -/
def charsHasSub (needle : List Char) : List Char → Bool
  | [] => charsHasPre needle []
  | b :: bs => charsHasPre needle (b :: bs) || charsHasSub needle bs

/-- Python `needle in hay` for strings: literal case-sensitive substring. -/
def pySubstr (needle hay : String) : Bool :=
  charsHasSub needle.toList hay.toList

/-- The chained lookup of `getosinstall` line 86:
`pv.get('ExtendedMetaInfo', {}).get('InstallAssistantPackageIdentifiers', {}).get('OSInstall', {}) == 'com.apple.mpkg.OSInstall'`.
The final Python `==` between an arbitrary value and a string is `True`
exactly when the value is that string. -/
def osinstallCheck (pv : PValue) : Except String Bool := do
  let a ← pyGetDefault pv "ExtendedMetaInfo"
  let b ← pyGetDefault a "InstallAssistantPackageIdentifiers"
  let c ← pyGetDefault b "OSInstall"
  pure (match c with
        | .str s => s = osInstallMarker
        | _ => false)

/-- The `for product in products` loop of `getosinstall`: iterate the keys
of the `Products` dict in document order; `products.get(product, {})`
fetches the product's value; append the id when the chained lookup equals
the marker. -/
def osinstallLoop (dict : List (String × PValue)) :
    List (String × PValue) → Except String (List String)
  | [] => .ok []
  | (k, _) :: rest => do
    let pv := (dict.lookup k).getD (.dict [])
    let b ← osinstallCheck pv
    let tl ← osinstallLoop dict rest
    pure (if b then k :: tl else tl)

/-- `SoftwareService.getosinstall` (lines 75-88) applied to the parsed
catalog `root`.  `root['Products']` raises `KeyError` when the key is
absent and `TypeError` when `root` is not a dict.  Iterating a non-dict
`Products` value either yields nothing (empty list / empty string) or
raises `AttributeError` at `products.get` on the first element; an
integer is not iterable (`TypeError`). -/
def getosinstall (root : PValue) : Except String (List String) :=
  match root with
  | .dict kvs =>
    match kvs.lookup "Products" with
    | none => .error "KeyError"
    | some (.dict prods) => osinstallLoop prods prods
    | some (.arr []) => .ok []
    | some (.arr (_ :: _)) => .error "AttributeError"
    | some (.str s) => if s = "" then .ok [] else .error "AttributeError"
    | some (.int _) => .error "TypeError"
  | _ => .error "TypeError"

/-- Specification-side predicate (§4.2 of the design): the nested path
`ExtendedMetaInfo → InstallAssistantPackageIdentifiers → OSInstall`
resolves and its value is the marker string. -/
def specIsInstaller (pv : PValue) : Bool :=
  match pv with
  | .dict d =>
    match d.lookup "ExtendedMetaInfo" with
    | some (.dict e) =>
      match e.lookup "InstallAssistantPackageIdentifiers" with
      | some (.dict i) =>
        match i.lookup "OSInstall" with
        | some (.str s) => s = osInstallMarker
        | _ => false
      | _ => false
    | _ => false
  | _ => false

/-- Well-shapedness of one product entry: the value is a dict, and along
the metadata path each intermediate key is either absent or bound to a
dict.  This is exactly the "missing intermediate keys" tolerance the
claims quantify over (a non-dict value bound to an intermediate key would
make Python's `.get` chain raise `AttributeError`). -/
def pathShaped (pv : PValue) : Bool :=
  match pv with
  | .dict d =>
    match d.lookup "ExtendedMetaInfo" with
    | none => true
    | some (.dict e) =>
      match e.lookup "InstallAssistantPackageIdentifiers" with
      | none => true
      | some (.dict _) => true
      | some _ => false
    | some _ => false
  | _ => false

/-! ## `MacOSProduct.fetchpackages` (lines 101-110)

`Filesystem.download_file` is an external download collaborator; we
record each invocation's `(item.get("URL"), item.get("Size"))` arguments.
A loop returns the list of invocations made, in order, paired with the
exception (if any) that aborted the loop. -/

/-- Arguments `(item.get("URL"), item.get("Size"))` passed to
`Filesystem.download_file` for one package descriptor. -/
def itemArgs (item : PValue) : Option PValue × Option PValue :=
  match item with
  | .dict d => (d.lookup "URL", d.lookup "Size")
  | _ => (none, none)

/-- Python `kw in v` for the URL value `v`: substring test on a string,
element membership on a list, key membership on a dict, `TypeError` on a
non-iterable scalar.  (A non-string list element never equals the string
`kw`.) -/
def pyIn (kw : String) (v : PValue) : Except String Bool :=
  match v with
  | .str s => .ok (pySubstr kw s)
  | .arr xs => .ok (xs.any (fun x => match x with
                                     | .str t => t = kw
                                     | _ => false))
  | .dict d => .ok (d.any (fun p => p.1 = kw))
  | .int _ => .error "TypeError"

/-- The keyword branch of `fetchpackages`:
`for item in packages: if keyword in item.get("URL"): download_file(...)`.
`item.get` on a non-dict raises `AttributeError`; when the `URL` key is
absent, `item.get("URL")` is `None` and `keyword in None` raises
`TypeError`. -/
def fetchLoopKw (kw : String) :
    List PValue → List (Option PValue × Option PValue) × Option String
  | [] => ([], none)
  | item :: rest =>
    match item with
    | .dict d =>
      match d.lookup "URL" with
      | none => ([], some "TypeError")
      | some u =>
        match pyIn kw u with
        | .error e => ([], some e)
        | .ok true =>
          let (tl, err) := fetchLoopKw kw rest
          ((some u, d.lookup "Size") :: tl, err)
        | .ok false => fetchLoopKw kw rest
    | _ => ([], some "AttributeError")

/-- The keyword-less branch of `fetchpackages`:
`for item in packages: download_file(item.get("URL"), item.get("Size"), path)`. -/
def fetchLoopAll :
    List PValue → List (Option PValue × Option PValue) × Option String
  | [] => ([], none)
  | item :: rest =>
    match item with
    | .dict d =>
      let (tl, err) := fetchLoopAll rest
      ((d.lookup "URL", d.lookup "Size") :: tl, err)
    | _ => ([], some "AttributeError")

/-- `MacOSProduct.fetchpackages(path, keyword)` (lines 101-110), as the
trace of `download_file` invocations plus the aborting exception, if any.
`self.product['Packages']` raises `KeyError`/`TypeError`; `if keyword:`
is Python truthiness, so `None` and the empty string both select the
keyword-less branch.  Iterating a non-list `Packages` value yields
nothing when it is empty and otherwise raises `AttributeError` at
`item.get` (dict keys / string characters are strings, which have no
`.get`); an integer is not iterable. -/
def fetchpackages (product : PValue) (keyword : Option String) :
    List (Option PValue × Option PValue) × Option String :=
  match product with
  | .dict d =>
    match d.lookup "Packages" with
    | none => ([], some "KeyError")
    | some (.arr items) =>
      match keyword with
      | some kw => if kw = "" then fetchLoopAll items else fetchLoopKw kw items
      | none => fetchLoopAll items
    | some (.dict []) => ([], none)
    | some (.dict (_ :: _)) => ([], some "AttributeError")
    | some (.str s) => if s = "" then ([], none) else ([], some "AttributeError")
    | some (.int _) => ([], some "TypeError")
  | _ => ([], some "TypeError")

/-- Specification-side predicate (§4.3): the descriptor's `url` contains
the keyword as a literal, case-sensitive substring. -/
def urlMatchesKw (kw : String) (item : PValue) : Bool :=
  match item with
  | .dict d =>
    match d.lookup "URL" with
    | some (.str s) => pySubstr kw s
    | _ => false
  | _ => false

/-- The descriptor is a dict whose `URL` entry is present and a string. -/
def itemHasURLStr (item : PValue) : Bool :=
  match item with
  | .dict d =>
    match d.lookup "URL" with
    | some (.str _) => true
    | _ => false
  | _ => false

/-- The descriptor is a dict (hypothesis for the keyword-less branch). -/
def itemIsDict (item : PValue) : Bool :=
  match item with
  | .dict _ => true
  | _ => false

/-! ## `MacOSProduct.__init__` (lines 92-99) -/

/-- `MacOSProduct.__init__`: evaluates `root['Products']`, then
`root['IndexDate']`, then `products[product_id]`, returning the selected
product value.  `[]`-indexing a dict raises `KeyError` on a missing key;
`[]`-indexing a list or string with a string key, or indexing a scalar,
raises `TypeError`.  (The script re-parses the catalog bytes here; we
take the parsed `root` directly, parsing being shared with
`getosinstall`.) -/
def macOSProductInit (root : PValue) (productId : String) :
    Except String PValue :=
  match root with
  | .dict kvs =>
    match kvs.lookup "Products" with
    | none => .error "KeyError"
    | some products =>
      match kvs.lookup "IndexDate" with
      | none => .error "KeyError"
      | some _ =>
        match products with
        | .dict prods =>
          match prods.lookup productId with
          | none => .error "KeyError"
          | some p => .ok p
        | _ => .error "TypeError"
  | _ => .error "TypeError"

/-! ## `SoftwareService` catalog table (lines 52-66) -/

def customerSeedURL : String :=
  "https://swscan.apple.com/content/catalogs/others/index-10.15customerseed-10.15-10.14-10.13-10.12-10.11-10.10-10.9-mountainlion-lion-snowleopard-leopard.merged-1.sucatalog"

def developerSeedURL : String :=
  "https://swscan.apple.com/content/catalogs/others/index-10.15seed-10.15-10.14-10.13-10.12-10.11-10.10-10.9-mountainlion-lion-snowleopard-leopard.merged-1.sucatalog"

def publicSeedURL : String :=
  "https://swscan.apple.com/content/catalogs/others/index-10.15beta-10.15-10.14-10.13-10.12-10.11-10.10-10.9-mountainlion-lion-snowleopard-leopard.merged-1.sucatalog"

def publicReleaseURL : String :=
  "https://swscan.apple.com/content/catalogs/others/index-10.15-10.14-10.13-10.12-10.11-10.10-10.9-mountainlion-lion-snowleopard-leopard.merged-1.sucatalog"

def publicRelease14URL : String :=
  "https://swscan.apple.com/content/catalogs/others/index-10.14-10.13-10.12-10.11-10.10-10.9-mountainlion-lion-snowleopard-leopard.merged-1.sucatalog"

def publicRelease13URL : String :=
  "https://swscan.apple.com/content/catalogs/others/index-10.13-10.12-10.11-10.10-10.9-mountainlion-lion-snowleopard-leopard.merged-1.sucatalog"

def publicRelease12URL : String :=
  "https://swscan.apple.com/content/catalogs/others/index-10.12-10.11-10.10-10.9-mountainlion-lion-snowleopard-leopard.merged-1.sucatalog"

/-- The class attribute `SoftwareService.catalogs`. -/
def catalogs : List (String × String) :=
  [("CustomerSeed", customerSeedURL),
   ("DeveloperSeed", developerSeedURL),
   ("PublicSeed", publicSeedURL),
   ("PublicRelease", publicReleaseURL),
   ("PublicRelease14", publicRelease14URL),
   ("PublicRelease13", publicRelease13URL),
   ("PublicRelease12", publicRelease12URL)]

/-- `SoftwareService.__init__`'s URL resolution (line 66):
`self.catalogs.get(catalog_id, self.catalogs["PublicRelease"])`.  The
default `self.catalogs["PublicRelease"]` is the statically present
`publicReleaseURL` entry. -/
def catalogsGet (catalogId : String) : String :=
  (catalogs.lookup catalogId).getD publicReleaseURL

/-! ## The `fetchmacos` orchestrator (lines 112-140) -/

/-- Observable external effects of one run: the catalog HTTP request
(`SoftwareService.getcatalog`, line 71) and each invocation of the
download collaborator with its `(url, size)` arguments. -/
inductive Event where
  | catalogFetch : String → Event
  | download : Option PValue → Option PValue → Event

/-- How one run of `fetchmacos` terminates. -/
inductive Outcome where
  /-- Fell off the end of `fetchmacos` normally. -/
  | ok : Outcome
  /-- `print(...); exit(1)` at lines 128-129: a user-facing message, no
  product id named. -/
  | exitMissingProductId : Outcome
  /-- `except KeyError: print(...); exit(1)` at lines 134-136: a
  user-facing message naming the product id. -/
  | exitProductNotFound : String → Outcome
  /-- An unhandled Python exception (non-zero exit with a traceback). -/
  | uncaught : String → Outcome

/-- Result of the product-id resolution step (lines 124-129). -/
inductive Resolved where
  | okId : String → Resolved
  | missingId : Resolved
  | raised : String → Resolved

/-- Lines 124-129: with `--latest`, `product_id = remote.getosinstall()[-1]`
(Python `[-1]` is the last element; `IndexError` on an empty list);
otherwise the caller-supplied id, rejected when empty. -/
def resolveProductId (root : PValue) (productId : String) (latest : Bool) :
    Resolved :=
  if latest then
    match getosinstall root with
    | .error e => .raised e
    | .ok installers =>
      match installers.getLast? with
      | some p => .okId p
      | none => .raised "IndexError"
  else if productId = "" then .missingId
  else .okId productId

/-- Lines 131-140: construct the `MacOSProduct` (only `KeyError` is
caught, yielding the "Product ID ... could not be found" exit) and run
`fetchpackages` with the variant keyword. -/
def runProduct (root : PValue) (fetchEsd : Bool) (pid : String) :
    List Event × Outcome :=
  match macOSProductInit root pid with
  | .error e =>
    if e = "KeyError" then ([], .exitProductNotFound pid) else ([], .uncaught e)
  | .ok product =>
    let kw := if fetchEsd then "InstallESDDmg.pkg" else "BaseSystem"
    let (dls, err) := fetchpackages product (some kw)
    (dls.map (fun p => Event.download p.1 p.2),
     match err with
     | none => .ok
     | some e => .uncaught e)

/-- One run of `fetchmacos` over the parsed catalog `root`.  The catalog
request (line 121) happens unconditionally before product-id resolution;
its URL comes from the `SoftwareService` constructor. -/
def fetchmacosRun (root : PValue) (catalogId : String) (fetchEsd : Bool)
    (productId : String) (latest : Bool) : List Event × Outcome :=
  let ev0 : List Event := [Event.catalogFetch (catalogsGet catalogId)]
  match resolveProductId root productId latest with
  | .missingId => (ev0, .exitMissingProductId)
  | .raised e => (ev0, .uncaught e)
  | .okId pid =>
    let (evs, out) := runProduct root fetchEsd pid
    (ev0 ++ evs, out)

/-! ## Helper lemmas -/

/-- In an association list with pairwise-distinct keys (a Python dict),
membership determines the lookup result. -/
theorem lookup_eq_of_mem {l : List (String × PValue)}
    (hnd : (l.map Prod.fst).Nodup) {k : String} {v : PValue}
    (h : (k, v) ∈ l) : l.lookup k = some v := by
  induction l with
  | nil => cases h
  | cons hd tl ih =>
    obtain ⟨k', v'⟩ := hd
    simp only [List.map_cons, List.nodup_cons] at hnd
    rcases List.mem_cons.mp h with heq | hmem
    · cases heq
      simp [List.lookup]
    · have hne : (k == k') = false := by
        refine beq_eq_false_iff_ne.mpr ?_
        rintro rfl
        exact hnd.1 (List.mem_map.mpr ⟨(k, v), hmem, rfl⟩)
      simpa [List.lookup, hne] using ih hnd.2 hmem

/-- On a well-shaped product entry the Python chained lookup raises
nothing and computes exactly the specification predicate. -/
theorem osinstallCheck_spec {pv : PValue} (h : pathShaped pv = true) :
    osinstallCheck pv = .ok (specIsInstaller pv) := by
  match pv with
  | .str _ => simp [pathShaped] at h
  | .int _ => simp [pathShaped] at h
  | .arr _ => simp [pathShaped] at h
  | .dict d =>
    cases he : d.lookup "ExtendedMetaInfo" with
    | none =>
      simp [osinstallCheck, pyGetDefault, specIsInstaller, he, Bind.bind, Pure.pure, Except.pure,
        Except.bind, Functor.map, Except.map]
    | some e =>
      cases e with
      | str s => simp [pathShaped, he] at h
      | int n => simp [pathShaped, he] at h
      | arr xs => simp [pathShaped, he] at h
      | dict e' =>
        cases hi : e'.lookup "InstallAssistantPackageIdentifiers" with
        | none =>
          simp [osinstallCheck, pyGetDefault, specIsInstaller, he, hi, Bind.bind, Pure.pure, Except.pure,
            Except.bind, Functor.map, Except.map]
        | some i =>
          cases i with
          | str s => simp [pathShaped, he, hi] at h
          | int n => simp [pathShaped, he, hi] at h
          | arr xs => simp [pathShaped, he, hi] at h
          | dict i' =>
            cases ho : i'.lookup "OSInstall" with
            | none =>
              simp [osinstallCheck, pyGetDefault, specIsInstaller, he, hi, ho,
                Bind.bind, Except.bind, Functor.map, Except.map, Pure.pure, Except.pure]
            | some o =>
              cases o <;>
                simp [osinstallCheck, pyGetDefault, specIsInstaller, he, hi, ho,
                  Bind.bind, Except.bind, Functor.map, Except.map, Pure.pure, Except.pure]

/-- The `getosinstall` loop over entries whose values it can look up is
the specification filter, in source order. -/
theorem osinstallLoop_spec (dict : List (String × PValue)) :
    ∀ l : List (String × PValue),
    (∀ p ∈ l, dict.lookup p.1 = some p.2) →
    (∀ p ∈ l, pathShaped p.2 = true) →
    osinstallLoop dict l =
      .ok ((l.filter (fun p => specIsInstaller p.2)).map Prod.fst) := by
  intro l
  induction l with
  | nil => intro _ _; rfl
  | cons hd rest ih =>
    intro hall hwf
    obtain ⟨k, v⟩ := hd
    have hk : dict.lookup k = some v := hall (k, v) (List.mem_cons_self _ _)
    have hcheck := osinstallCheck_spec (hwf (k, v) (List.mem_cons_self _ _))
    have htl := ih (fun p hp => hall p (List.mem_cons_of_mem _ hp))
      (fun p hp => hwf p (List.mem_cons_of_mem _ hp))
    cases hinst : specIsInstaller v <;>
      simp [osinstallLoop, hk, hcheck, htl, hinst, List.filter_cons,
        Bind.bind, Except.bind, Functor.map, Except.map, Pure.pure, Except.pure]

/-- The empty string is a substring of every string (Python `"" in s`). -/
theorem charsHasSub_nil : ∀ l : List Char, charsHasSub [] l = true
  | [] => rfl
  | _ :: _ => by simp [charsHasSub, charsHasPre]

/-- Python `"" in s` is always `True`. -/
theorem pySubstr_empty (s : String) : pySubstr "" s = true :=
  charsHasSub_nil s.toList

/-- The keyword-less download loop invokes the collaborator once per
descriptor, in order, and raises nothing when every descriptor is a dict. -/
theorem fetchLoopAll_spec : ∀ items : List PValue,
    (∀ it ∈ items, itemIsDict it = true) →
    fetchLoopAll items = (items.map itemArgs, none)
  | [], _ => rfl
  | item :: rest, h => by
    have hd := h item (List.mem_cons_self _ _)
    have htl := fetchLoopAll_spec rest (fun it hit => h it (List.mem_cons_of_mem _ hit))
    cases item with
    | dict d => simp [fetchLoopAll, htl, itemArgs]
    | str s => simp [itemIsDict] at hd
    | int n => simp [itemIsDict] at hd
    | arr xs => simp [itemIsDict] at hd

/-- The keyword loop invokes the collaborator exactly for the descriptors
whose `URL` string contains the keyword, in order, and raises nothing
when every descriptor carries a string `URL`. -/
theorem fetchLoopKw_spec (kw : String) : ∀ items : List PValue,
    (∀ it ∈ items, itemHasURLStr it = true) →
    fetchLoopKw kw items = ((items.filter (urlMatchesKw kw)).map itemArgs, none)
  | [], _ => rfl
  | item :: rest, h => by
    have hd := h item (List.mem_cons_self _ _)
    have htl := fetchLoopKw_spec kw rest (fun it hit => h it (List.mem_cons_of_mem _ hit))
    cases item with
    | str s => simp [itemHasURLStr] at hd
    | int n => simp [itemHasURLStr] at hd
    | arr xs => simp [itemHasURLStr] at hd
    | dict d =>
      cases hu : d.lookup "URL" with
      | none => simp [itemHasURLStr, hu] at hd
      | some u =>
        cases u with
        | int n => simp [itemHasURLStr, hu] at hd
        | arr xs => simp [itemHasURLStr, hu] at hd
        | dict d' => simp [itemHasURLStr, hu] at hd
        | str s =>
          cases hm : pySubstr kw s <;>
            simp [fetchLoopKw, hu, pyIn, hm, htl, List.filter_cons,
              urlMatchesKw, itemArgs]

/-- The empty keyword matches every descriptor that carries a string URL
(Python `"" in s` is `True`), so filtering by it keeps everything. -/
theorem urlMatchesKw_empty {it : PValue} (h : itemHasURLStr it = true) :
    urlMatchesKw "" it = true := by
  cases it with
  | str s => simp [itemHasURLStr] at h
  | int n => simp [itemHasURLStr] at h
  | arr xs => simp [itemHasURLStr] at h
  | dict d =>
    cases hu : d.lookup "URL" with
    | none => simp [itemHasURLStr, hu] at h
    | some u =>
      cases u with
      | str s => simp [urlMatchesKw, hu, pySubstr_empty]
      | int n => simp [itemHasURLStr, hu] at h
      | arr xs => simp [itemHasURLStr, hu] at h
      | dict d' => simp [itemHasURLStr, hu] at h

/-! ## Concrete catalog fixtures (used by the witnesses) -/

/-- A product entry carrying the installer marker. -/
def cInstaller : PValue :=
  .dict [("ExtendedMetaInfo",
          .dict [("InstallAssistantPackageIdentifiers",
                  .dict [("OSInstall", .str "com.apple.mpkg.OSInstall")])])]

/-- A product entry with no metadata at all. -/
def cPlain : PValue := .dict []

/-- Two products, only the first of which is an installer. -/
def cProds : List (String × PValue) := [("001-1", cInstaller), ("001-2", cPlain)]

/-- Top-level entries of a small well-formed catalog. -/
def cRootEntries : List (String × PValue) :=
  [("Products", .dict cProds), ("IndexDate", .str "2019-10-01")]

/-- A catalog whose three products are all installers. -/
def cRootABC : PValue :=
  .dict [("Products",
          .dict [("A", cInstaller), ("B", cInstaller), ("C", cInstaller)]),
         ("IndexDate", .str "2019-10-01")]

/-- Two package descriptors: a BaseSystem image and an ESD image. -/
def cPkgs : List PValue :=
  [.dict [("URL", .str "http://swcdn.apple.com/BaseSystem.pkg"), ("Size", .int 100)],
   .dict [("URL", .str "http://swcdn.apple.com/InstallESDDmg.pkg"), ("Size", .int 500)]]

/-! ## The claims -/

/-- **C1.** For every well-formed catalog document whose top-level
`Products` mapping has pairwise-distinct keys and well-shaped entries
(intermediate metadata keys may be missing at any level, but a present
intermediate key is bound to a mapping), `getosinstall` returns exactly
the product ids whose nested
`ExtendedMetaInfo → InstallAssistantPackageIdentifiers → OSInstall` path
equals the marker `com.apple.mpkg.OSInstall`, in the document's source
order, and it raises nothing — in particular not for products missing
any intermediate key of that path. -/
theorem getosinstall_filters_by_marker
    (kvs prods : List (String × PValue))
    (hP : kvs.lookup "Products" = some (.dict prods))
    (hnd : (prods.map Prod.fst).Nodup)
    (hwf : ∀ p ∈ prods, pathShaped p.2 = true) :
    getosinstall (.dict kvs) =
      .ok ((prods.filter (fun p => specIsInstaller p.2)).map Prod.fst) := by
  have hall : ∀ p ∈ prods, prods.lookup p.1 = some p.2 := by
    intro p hp
    obtain ⟨k, v⟩ := p
    exact lookup_eq_of_mem hnd hp
  simp only [getosinstall, hP]
  exact osinstallLoop_spec prods prods hall hwf

/-- Witness for C1 on the two-product fixture: the installer-marked
product is listed, the metadata-less one is not, nothing is raised. -/
theorem getosinstall_filters_by_marker_witness :
    ((([("Products", PValue.dict cProds)] : List (String × PValue)).lookup "Products"
        = some (.dict cProds))
     ∧ (cProds.map Prod.fst).Nodup
     ∧ (∀ p ∈ cProds, pathShaped p.2 = true))
    ∧ getosinstall (.dict [("Products", .dict cProds)])
        = .ok ((cProds.filter (fun p => specIsInstaller p.2)).map Prod.fst) :=
  ⟨⟨rfl, by decide, by decide⟩,
   getosinstall_filters_by_marker [("Products", .dict cProds)] cProds rfl
     (by decide) (by decide)⟩

/-- **C2.** Over a package list whose descriptors all carry a string
`URL`: with an absent keyword `fetchpackages` invokes the download
collaborator once per descriptor in the product's original order, and
with a keyword present it invokes it exactly for the descriptors whose
URL contains the keyword as a literal case-sensitive substring,
preserving source order with no deduplication; an empty selection is not
an error (no exception is raised either way). -/
theorem fetchpackages_selection
    (d : List (String × PValue)) (items : List PValue) (kw : String)
    (hp : d.lookup "Packages" = some (.arr items))
    (hwf : ∀ it ∈ items, itemHasURLStr it = true) :
    fetchpackages (.dict d) none = (items.map itemArgs, none)
    ∧ fetchpackages (.dict d) (some kw) =
        ((items.filter (urlMatchesKw kw)).map itemArgs, none) := by
  have hdict : ∀ it ∈ items, itemIsDict it = true := by
    intro it hit
    have h := hwf it hit
    cases it <;> simp [itemHasURLStr, itemIsDict] at h ⊢
  refine ⟨?_, ?_⟩
  · simp only [fetchpackages, hp]
    exact fetchLoopAll_spec items hdict
  · by_cases hkw : kw = ""
    · subst hkw
      have hfilter : items.filter (urlMatchesKw "") = items :=
        List.filter_eq_self.mpr fun it hit => urlMatchesKw_empty (hwf it hit)
      simp only [fetchpackages, hp, if_pos rfl, hfilter]
      exact fetchLoopAll_spec items hdict
    · simp only [fetchpackages, hp, if_neg hkw]
      exact fetchLoopKw_spec kw items hwf

/-- Witness for C2 on Scenario C's two packages with keyword
`BaseSystem`: no keyword selects both in order, the keyword selects
exactly the BaseSystem descriptor. -/
theorem fetchpackages_selection_witness :
    ((([("Packages", PValue.arr cPkgs)] : List (String × PValue)).lookup "Packages"
        = some (.arr cPkgs))
     ∧ (∀ it ∈ cPkgs, itemHasURLStr it = true))
    ∧ fetchpackages (.dict [("Packages", .arr cPkgs)]) none
        = (cPkgs.map itemArgs, none)
    ∧ fetchpackages (.dict [("Packages", .arr cPkgs)]) (some "BaseSystem")
        = ((cPkgs.filter (urlMatchesKw "BaseSystem")).map itemArgs, none) :=
  ⟨⟨rfl, by decide⟩,
   fetchpackages_selection [("Packages", .arr cPkgs)] cPkgs "BaseSystem" rfl
     (by decide)⟩

/-- **C3.** When `--latest` is set and the catalog's installer-product
list is non-empty, the resolved product id is the last entry of
`getosinstall` in catalog-declared order — no date- or version-based
comparison is involved (the result is a pure function of that list's
last element). -/
theorem resolve_latest_is_last (root : PValue) (pid : String)
    (l : List String) (p : String)
    (hl : getosinstall root = .ok l) (hp : l.getLast? = some p) :
    resolveProductId root pid true = .okId p := by
  simp [resolveProductId, hl, hp]

/-- Witness for C3 on Scenario B's catalog with installer products
`["A", "B", "C"]`: `--latest` resolves to `"C"`. -/
theorem resolve_latest_is_last_witness :
    getosinstall cRootABC = .ok ["A", "B", "C"]
    ∧ (["A", "B", "C"] : List String).getLast? = some "C"
    ∧ resolveProductId cRootABC "whatever" true = .okId "C" :=
  ⟨rfl, rfl, resolve_latest_is_last cRootABC "whatever" ["A", "B", "C"] "C" rfl rfl⟩

/-- **C4** is violated by the code: with no product id and no `--latest`,
the run does exit via the missing-product-id message (status 1), but the
catalog has already been fetched — `getcatalog()` runs at line 121,
before the check at line 127, so the trace of the run contains a network
request.  The claim's "before any network access occurs — in particular,
no catalog fetch" is therefore false. -/
theorem missing_id_counterexample :
    fetchmacosRun (.dict []) "PublicRelease" false "" false
      = ([Event.catalogFetch publicReleaseURL], .exitMissingProductId) := rfl

/-- **C4 (amended).** When neither an explicit product id nor `--latest`
is supplied, the run exits with status 1 and a user-facing message
before any download, but after exactly one catalog fetch (the claim's
"before any network access" does not hold: the catalog request precedes
the check). -/
theorem missing_id_after_catalog (root : PValue) (cid : String) (esd : Bool) :
    fetchmacosRun root cid esd "" false
      = ([Event.catalogFetch (catalogsGet cid)], .exitMissingProductId) := by
  simp [fetchmacosRun, resolveProductId]

/-- **C5.** For every product id absent from the document's `Products`
mapping (in a document that does carry `Products` and `IndexDate`), the
run fails via the caught `KeyError` branch: it exits with status 1 with
a user-facing message naming the missing id, and no download is
attempted (the trace holds only the catalog fetch).  This branch is
distinct from a structural parse failure, which would surface as an
uncaught exception. -/
theorem product_not_found_run
    (kvs prods : List (String × PValue)) (cid : String) (esd : Bool)
    (pid : String) (dte : PValue)
    (hP : kvs.lookup "Products" = some (.dict prods))
    (hD : kvs.lookup "IndexDate" = some dte)
    (hpid : prods.lookup pid = none) (hne : pid ≠ "") :
    fetchmacosRun (.dict kvs) cid esd pid false
      = ([Event.catalogFetch (catalogsGet cid)], .exitProductNotFound pid) := by
  simp [fetchmacosRun, resolveProductId, hne, runProduct, macOSProductInit,
    hP, hD, hpid]

/-- Witness for C5: requesting the absent id `999-9` from the
two-product catalog exits naming `999-9`, with no download event. -/
theorem product_not_found_run_witness :
    (cRootEntries.lookup "Products" = some (.dict cProds)
     ∧ cRootEntries.lookup "IndexDate" = some (.str "2019-10-01")
     ∧ cProds.lookup "999-9" = none
     ∧ "999-9" ≠ "")
    ∧ fetchmacosRun (.dict cRootEntries) "PublicRelease" false "999-9" false
        = ([Event.catalogFetch (catalogsGet "PublicRelease")],
           .exitProductNotFound "999-9") :=
  ⟨⟨rfl, rfl, rfl, by decide⟩,
   product_not_found_run cRootEntries cProds "PublicRelease" false "999-9"
     (.str "2019-10-01") rfl rfl rfl (by decide)⟩

/-- **C6.** When `--latest` is requested and no product in the catalog
satisfies the installer-metadata marker (`getosinstall` returns the
empty list), the run fails: `getosinstall()[-1]` raises `IndexError`
(the code's realization of NoInstallerProductsError), the run aborts
with only the catalog fetch in its trace and no download. -/
theorem latest_no_installers_fails (root : PValue) (cid : String)
    (esd : Bool) (pid : String) (h : getosinstall root = .ok []) :
    fetchmacosRun root cid esd pid true
      = ([Event.catalogFetch (catalogsGet cid)], .uncaught "IndexError") := by
  simp [fetchmacosRun, resolveProductId, h]

/-- Witness for C6 on a catalog whose only product lacks the marker. -/
theorem latest_no_installers_fails_witness :
    getosinstall (.dict [("Products", PValue.dict [("001-2", cPlain)])]) = .ok []
    ∧ fetchmacosRun (.dict [("Products", PValue.dict [("001-2", cPlain)])])
        "PublicRelease" false "" true
        = ([Event.catalogFetch (catalogsGet "PublicRelease")],
           .uncaught "IndexError") :=
  ⟨rfl, latest_no_installers_fails _ "PublicRelease" false "" rfl⟩

/-- **C7** is violated by the code: a descriptor missing its `URL` field
is not skipped — `keyword in item.get("URL")` evaluates `in` against
`None` and raises `TypeError`, so keyword selection fails on the
one-descriptor list `[{"Size": 100}]` (the error branch is reachable). -/
theorem urlless_descriptor_counterexample :
    fetchpackages (.dict [("Packages", .arr [.dict [("Size", PValue.int 100)]])])
        (some "BaseSystem")
      = ([], some "TypeError")
    ∧ ([("Size", PValue.int 100)] : List (String × PValue)).lookup "URL" = none :=
  ⟨rfl, rfl⟩

/-- **C7 (amended).** With a (non-empty) keyword, a descriptor missing
its `url` field makes selection fail with `TypeError` the moment it is
reached (here at the head of the package list): it is not skipped, and
the remaining descriptors are not processed. -/
theorem urlless_descriptor_aborts
    (dd d' : List (String × PValue)) (rest : List PValue) (kw : String)
    (hkw : kw ≠ "")
    (hp : dd.lookup "Packages" = some (.arr (.dict d' :: rest)))
    (hurl : d'.lookup "URL" = none) :
    fetchpackages (.dict dd) (some kw) = ([], some "TypeError") := by
  simp [fetchpackages, hp, hkw, fetchLoopKw, hurl]

/-- Witness for the amended C7 at the counterexample's input shape. -/
theorem urlless_descriptor_aborts_witness :
    ("InstallESDDmg.pkg" ≠ ""
     ∧ (([("Packages", PValue.arr [.dict [("Size", PValue.int 100)]])]
          : List (String × PValue)).lookup "Packages"
         = some (.arr (.dict [("Size", PValue.int 100)] :: [])))
     ∧ ([("Size", PValue.int 100)] : List (String × PValue)).lookup "URL" = none)
    ∧ fetchpackages (.dict [("Packages", .arr [.dict [("Size", PValue.int 100)]])])
        (some "InstallESDDmg.pkg")
      = ([], some "TypeError") :=
  ⟨⟨by decide, rfl, rfl⟩,
   urlless_descriptor_aborts [("Packages", .arr [.dict [("Size", PValue.int 100)]])]
     [("Size", PValue.int 100)] [] "InstallESDDmg.pkg" (by decide) rfl rfl⟩

/-- **C8** is violated by the code: `MacOSProduct.__init__` evaluates
`root['IndexDate']` unconditionally, so a document that omits it makes
construction raise `KeyError` even though the requested product `001-1`
is present in `Products`.  The absence of index-date metadata is
therefore fatal, not optional. -/
theorem indexdate_missing_counterexample :
    macOSProductInit (.dict [("Products", PValue.dict cProds)]) "001-1"
      = .error "KeyError"
    ∧ (cProds.lookup "001-1").isSome = true :=
  ⟨rfl, rfl⟩

/-- **C8 (amended).** `IndexDate` is required, not optional: whenever the
top-level document omits it, `MacOSProduct.__init__` raises `KeyError`
(whatever the product id), and the orchestrator's `except KeyError`
handler misreports the failure as "Product ID ... could not be found",
exiting with status 1 and no download. -/
theorem indexdate_required
    (kvs : List (String × PValue)) (products : PValue)
    (cid pid : String) (esd : Bool)
    (hP : kvs.lookup "Products" = some products)
    (hD : kvs.lookup "IndexDate" = none) (hne : pid ≠ "") :
    macOSProductInit (.dict kvs) pid = .error "KeyError"
    ∧ fetchmacosRun (.dict kvs) cid esd pid false
        = ([Event.catalogFetch (catalogsGet cid)], .exitProductNotFound pid) := by
  have h1 : macOSProductInit (.dict kvs) pid = .error "KeyError" := by
    simp [macOSProductInit, hP, hD]
  exact ⟨h1, by simp [fetchmacosRun, resolveProductId, hne, runProduct, h1]⟩

/-- Witness for the amended C8 on the `IndexDate`-less catalog. -/
theorem indexdate_required_witness :
    ((([("Products", PValue.dict cProds)] : List (String × PValue)).lookup "Products"
        = some (.dict cProds))
     ∧ (([("Products", PValue.dict cProds)] : List (String × PValue)).lookup "IndexDate"
          = none)
     ∧ "001-1" ≠ "")
    ∧ macOSProductInit (.dict [("Products", .dict cProds)]) "001-1" = .error "KeyError"
    ∧ fetchmacosRun (.dict [("Products", .dict cProds)]) "PublicRelease" false
        "001-1" false
        = ([Event.catalogFetch (catalogsGet "PublicRelease")],
           .exitProductNotFound "001-1") :=
  ⟨⟨rfl, rfl, by decide⟩,
   indexdate_required [("Products", .dict cProds)] (.dict cProds) "PublicRelease"
     "001-1" false rfl rfl (by decide)⟩

/-- **C9.** Catalog-URL resolution maps each of the seven recognized ids
(`CustomerSeed`, `DeveloperSeed`, `PublicSeed`, `PublicRelease`, and the
older numbered release catalogs `PublicRelease14` / `13` / `12`) to its
specific URL, and maps every unrecognized id to the `PublicRelease`
default URL; being a total function, it raises nothing. -/
theorem catalogs_resolution (cid : String)
    (h : catalogs.lookup cid = none) :
    catalogsGet "CustomerSeed" = customerSeedURL
    ∧ catalogsGet "DeveloperSeed" = developerSeedURL
    ∧ catalogsGet "PublicSeed" = publicSeedURL
    ∧ catalogsGet "PublicRelease" = publicReleaseURL
    ∧ catalogsGet "PublicRelease14" = publicRelease14URL
    ∧ catalogsGet "PublicRelease13" = publicRelease13URL
    ∧ catalogsGet "PublicRelease12" = publicRelease12URL
    ∧ catalogsGet cid = publicReleaseURL := by
  refine ⟨rfl, rfl, rfl, rfl, rfl, rfl, rfl, ?_⟩
  simp [catalogsGet, h]

/-- Witness for C9 at the unrecognized id `SomeFutureSeed`. -/
theorem catalogs_resolution_witness :
    catalogs.lookup "SomeFutureSeed" = none
    ∧ catalogsGet "SomeFutureSeed" = publicReleaseURL :=
  ⟨rfl, (catalogs_resolution "SomeFutureSeed" rfl).2.2.2.2.2.2.2⟩

/-- **C10.** With `--latest` set, the caller-supplied `--product-id` is
ignored: resolution does not depend on it at all, and whenever the
installer list is non-empty the result is unconditionally its last
entry. -/
theorem latest_ignores_product_id (root : PValue) (pid other : String) :
    resolveProductId root pid true = resolveProductId root other true
    ∧ ∀ l p, getosinstall root = .ok l → l.getLast? = some p →
        resolveProductId root pid true = .okId p := by
  refine ⟨by simp [resolveProductId], ?_⟩
  intro l p hl hp
  simp [resolveProductId, hl, hp]

/-- Witness for C10: an explicit id is overridden by the last installer. -/
theorem latest_ignores_product_id_witness :
    getosinstall cRootABC = .ok ["A", "B", "C"]
    ∧ (["A", "B", "C"] : List String).getLast? = some "C"
    ∧ resolveProductId cRootABC "061-26578" true = resolveProductId cRootABC "" true
    ∧ resolveProductId cRootABC "061-26578" true = .okId "C" :=
  ⟨rfl, rfl, (latest_ignores_product_id cRootABC "061-26578" "").1,
   (latest_ignores_product_id cRootABC "061-26578" "").2 ["A", "B", "C"] "C" rfl rfl⟩
